import Mathlib

/-!
Shallow embedding of the Pomodoro timer's phase engine (src/app1.py).
The engine state is the set of `st.session_state` fields the timer logic
reads and writes; each operation below embeds one handler or loop of the
source.  Presentation-only effects (toasts, markdown rendering, sleeping)
are dropped; everything else follows the source line by line.
-/

namespace Pomodoro

/-- The `current_mode` strings of the source: "Work", "Short Break",
"Long Break" (src/app1.py lines 18, 45, 49, 53). -/
inductive Mode where
  | work
  | shortBreak
  | longBreak
deriving DecidableEq, Repr

/-- Default work minutes (src/app1.py line 7). -/
def DEFAULT_WORK_MINUTES : Int := 25

/-- Default short-break minutes (src/app1.py line 8). -/
def DEFAULT_SHORT_BREAK_MINUTES : Int := 5

/-- Default long-break minutes (src/app1.py line 9). -/
def DEFAULT_LONG_BREAK_MINUTES : Int := 15

/-- Work phases per long break (src/app1.py line 10). -/
def POMODOROS_BEFORE_LONG_BREAK : Nat := 4

/-- The session-state fields the engine mutates (src/app1.py lines 14-25):
`timer_running`, `current_mode`, the three durations in seconds,
`pomodoros_completed`, `remaining_time`. -/
structure EngineState where
  current_mode : Mode
  remaining_time : Int
  timer_running : Bool
  pomodoros_completed : Nat
  work_duration : Int
  short_break_duration : Int
  long_break_duration : Int
deriving DecidableEq, Repr

/-- The three configured durations of a state, as one tuple. -/
def EngineState.config (st : EngineState) : Int × Int × Int :=
  (st.work_duration, st.short_break_duration, st.long_break_duration)

/-- The state `initialize_state` builds on first run (src/app1.py lines
14-25): mode Work, default durations, zero pomodoros, timer stopped,
remaining time equal to the work duration. -/
def initial_state : EngineState :=
  { current_mode := Mode.work
    remaining_time := DEFAULT_WORK_MINUTES * 60
    timer_running := false
    pomodoros_completed := 0
    work_duration := DEFAULT_WORK_MINUTES * 60
    short_break_duration := DEFAULT_SHORT_BREAK_MINUTES * 60
    long_break_duration := DEFAULT_LONG_BREAK_MINUTES * 60 }

/-- `switch_mode` (src/app1.py lines 36-57).  From Work it increments
`pomodoros_completed` and moves to Long Break when the incremented count
is divisible by `POMODOROS_BEFORE_LONG_BREAK`, otherwise to Short Break;
from either break it moves back to Work.  Line 57 sets
`timer_running = False` in every case, folded here into each branch. -/
def switch_mode (st : EngineState) : EngineState :=
  if st.current_mode = Mode.work then
    if (st.pomodoros_completed + 1) % POMODOROS_BEFORE_LONG_BREAK = 0 then
      { st with current_mode := Mode.longBreak
                pomodoros_completed := st.pomodoros_completed + 1
                remaining_time := st.long_break_duration
                timer_running := false }
    else
      { st with current_mode := Mode.shortBreak
                pomodoros_completed := st.pomodoros_completed + 1
                remaining_time := st.short_break_duration
                timer_running := false }
  else
    { st with current_mode := Mode.work
              remaining_time := st.work_duration
              timer_running := false }

/-- `start_timer` (src/app1.py lines 59-62): starts only when time
remains. -/
def start_timer (st : EngineState) : EngineState :=
  if 0 < st.remaining_time then { st with timer_running := true } else st

/-- `pause_timer` (src/app1.py lines 65-67). -/
def pause_timer (st : EngineState) : EngineState :=
  { st with timer_running := false }

/-- `reset_current_timer` (src/app1.py lines 70-79): stop the timer and
reload the current mode's configured duration. -/
def reset_current_timer (st : EngineState) : EngineState :=
  { st with
    timer_running := false
    remaining_time :=
      match st.current_mode with
      | Mode.work => st.work_duration
      | Mode.shortBreak => st.short_break_duration
      | Mode.longBreak => st.long_break_duration }

/-- `reset_cycle` (src/app1.py lines 82-87): back to the first Work phase
with the pomodoro count cleared. -/
def reset_cycle (st : EngineState) : EngineState :=
  { st with
    timer_running := false
    current_mode := Mode.work
    remaining_time := st.work_duration
    pomodoros_completed := 0 }

/-- The single error kind of the reconfigure operation. -/
inductive ConfigError where
  | invalidConfiguration
deriving DecidableEq, Repr

/-- The settings-apply operation: the three `st.number_input` widgets
(src/app1.py lines 101-121) reject any minute value below their
`min_value=1`, leaving the state untouched, and the "Apply Settings"
handler (lines 124-128) stores each value times 60 and calls
`reset_current_timer`.  A rejected submission is the
`InvalidConfiguration` failure; acceptance yields the updated state. -/
def apply_settings (work_minutes short_break_minutes long_break_minutes : Int)
    (st : EngineState) : Except ConfigError EngineState :=
  if work_minutes < 1 ∨ short_break_minutes < 1 ∨ long_break_minutes < 1 then
    Except.error ConfigError.invalidConfiguration
  else
    Except.ok (reset_current_timer
      { st with
        work_duration := work_minutes * 60
        short_break_duration := short_break_minutes * 60
        long_break_duration := long_break_minutes * 60 })

/-- One pass of the timer loop plus the finish check (src/app1.py lines
168-196): while running and time remains, `remaining_time` drops by one;
the decrement that reaches zero ends the loop and, the timer still
running, `switch_mode()` fires within the same tick. -/
def tick (st : EngineState) : EngineState :=
  if st.timer_running = true ∧ 0 < st.remaining_time then
    if st.remaining_time - 1 ≤ 0 then
      switch_mode { st with remaining_time := st.remaining_time - 1 }
    else
      { st with remaining_time := st.remaining_time - 1 }
  else st

/-- A natural expiry of the current phase: press Start, then let the loop
tick `remaining_time` times (the last tick switches the mode). -/
def expire (st : EngineState) : EngineState :=
  tick^[st.remaining_time.toNat] (start_timer st)

/-- Two-digit zero padding, as `datetime.timedelta.__str__` prints minute
and second fields. -/
def two_digit (n : Nat) : String :=
  if n < 10 then "0" ++ toString n else toString n

/-- `format_time` (src/app1.py lines 32-34) is
`str(datetime.timedelta(seconds=int(seconds)))`.  For a non-negative
count of seconds, Python prints `H:MM:SS` with the hour field always
present and unpadded, preceded by a day count when one is non-zero. -/
def format_time (seconds : Nat) : String :=
  let d := seconds / 86400
  let h := seconds % 86400 / 3600
  let m := seconds % 3600 / 60
  let s := seconds % 60
  (if d = 0 then ""
   else toString d ++ (if d = 1 then " day, " else " days, "))
    ++ toString h ++ ":" ++ two_digit m ++ ":" ++ two_digit s

/-- The Work phase entered after `k` completed pomodoros, timer stopped,
default configuration. -/
def work_state (k : Nat) : EngineState :=
  { initial_state with pomodoros_completed := k }

/-- The break phase entered right after the `j`-th Work completion under
the default configuration: a Long Break when `j` is divisible by 4, a
Short Break otherwise. -/
def break_state (j : Nat) : EngineState :=
  if j % 4 = 0 then
    { initial_state with
      current_mode := Mode.longBreak
      remaining_time := DEFAULT_LONG_BREAK_MINUTES * 60
      pomodoros_completed := j }
  else
    { initial_state with
      current_mode := Mode.shortBreak
      remaining_time := DEFAULT_SHORT_BREAK_MINUTES * 60
      pomodoros_completed := j }

/-- One step of the engine: each user command or a tick of the running
timer. -/
inductive Step : EngineState → EngineState → Prop where
  | start_op (st : EngineState) : Step st (start_timer st)
  | pause_op (st : EngineState) : Step st (pause_timer st)
  | reset_phase_op (st : EngineState) : Step st (reset_current_timer st)
  | reset_cycle_op (st : EngineState) : Step st (reset_cycle st)
  | skip_op (st : EngineState) : Step st (switch_mode st)
  | reconfigure_op (st st' : EngineState) (w s l : Int) :
      apply_settings w s l st = Except.ok st' → Step st st'
  | tick_op (st : EngineState) :
      st.timer_running = true → Step st (tick st)

/-- The states the engine can reach from the initial state. -/
inductive Reachable : EngineState → Prop where
  | init : Reachable initial_state
  | step (st st' : EngineState) : Reachable st → Step st st' → Reachable st'

/-- The inductive invariant: time never negative, a stopped timer at
zero, and positive configured durations. -/
def Inv (st : EngineState) : Prop :=
  0 ≤ st.remaining_time ∧ (st.remaining_time = 0 → st.timer_running = false) ∧
    0 < st.work_duration ∧ 0 < st.short_break_duration ∧
    0 < st.long_break_duration

/-! ### Helper lemmas shared by the claim theorems -/

theorem switch_mode_remaining_and_config (st : EngineState) :
    ((switch_mode st).remaining_time = st.work_duration ∨
      (switch_mode st).remaining_time = st.short_break_duration ∨
      (switch_mode st).remaining_time = st.long_break_duration) ∧
    (switch_mode st).timer_running = false ∧
    (switch_mode st).config = st.config := by
  unfold switch_mode EngineState.config
  split
  · split <;> simp
  · simp

theorem switch_mode_irrel (st : EngineState) (r : Int) (b : Bool) :
    switch_mode { st with remaining_time := r, timer_running := b } =
      switch_mode st := by
  unfold switch_mode
  split
  · split <;> simp_all
  · simp_all

theorem switch_mode_completed_le (st : EngineState) :
    st.pomodoros_completed ≤ (switch_mode st).pomodoros_completed := by
  unfold switch_mode
  split
  · split
    all_goals
      show st.pomodoros_completed ≤ st.pomodoros_completed + 1
      omega
  · exact le_refl _

theorem config_eq_iff (a b : EngineState) :
    a.config = b.config ↔
      (a.work_duration = b.work_duration ∧
        a.short_break_duration = b.short_break_duration ∧
        a.long_break_duration = b.long_break_duration) := by
  unfold EngineState.config
  simp

theorem tick_of_gt_one (st : EngineState) (hrun : st.timer_running = true)
    (h : 1 < st.remaining_time) :
    tick st = { st with remaining_time := st.remaining_time - 1 } := by
  unfold tick
  rw [if_pos ⟨hrun, by omega⟩, if_neg (by omega)]

theorem tick_of_eq_one (st : EngineState) (hrun : st.timer_running = true)
    (h : st.remaining_time = 1) :
    tick st = switch_mode { st with remaining_time := 0 } := by
  unfold tick
  rw [if_pos ⟨hrun, by omega⟩, if_pos (by omega)]
  rw [h]
  norm_num

theorem ticks_to_switch :
    ∀ (n : Nat) (st : EngineState), st.timer_running = true →
      st.remaining_time = (n : Int) + 1 →
      tick^[n + 1] st = switch_mode { st with remaining_time := 0 } := by
  intro n
  induction n with
  | zero =>
    intro st hrun hrem
    rw [Function.iterate_one]
    exact tick_of_eq_one st hrun (by simpa using hrem)
  | succ k ih =>
    intro st hrun hrem
    rw [Function.iterate_succ_apply]
    have ht : tick st = { st with remaining_time := (k : Int) + 1 } := by
      rw [tick_of_gt_one st hrun (by rw [hrem]; push_cast; omega), hrem]
      push_cast
      norm_num
    rw [ht, ih { st with remaining_time := (k : Int) + 1 } hrun rfl]

theorem ticks_partial :
    ∀ (n : Nat) (st : EngineState), st.timer_running = true →
      (n : Int) < st.remaining_time →
      tick^[n] st = { st with remaining_time := st.remaining_time - n } := by
  intro n
  induction n with
  | zero =>
    intro st _ _
    simp
  | succ k ih =>
    intro st hrun h
    rw [Function.iterate_succ_apply]
    have ht : tick st = { st with remaining_time := st.remaining_time - 1 } := by
      refine tick_of_gt_one st hrun (by push_cast at h; omega)
    rw [ht, ih { st with remaining_time := st.remaining_time - 1 } hrun
      (by push_cast at h ⊢; omega)]
    push_cast
    congr 1
    omega

theorem expire_eq_switch_mode (st : EngineState) (h : 0 < st.remaining_time) :
    expire st = switch_mode st := by
  obtain ⟨n, hn⟩ : ∃ n : Nat, st.remaining_time = (n : Int) + 1 :=
    ⟨(st.remaining_time - 1).toNat, by omega⟩
  have hcount : st.remaining_time.toNat = n + 1 := by omega
  unfold expire
  rw [start_timer, if_pos h, hcount]
  rw [ticks_to_switch n { st with timer_running := true } rfl (by simpa using hn)]
  exact switch_mode_irrel st 0 true

theorem expire_work_state (k : Nat) :
    expire (work_state k) = break_state (k + 1) := by
  rw [expire_eq_switch_mode (work_state k)
    (by simp [work_state, initial_state, DEFAULT_WORK_MINUTES])]
  unfold switch_mode work_state break_state initial_state
  by_cases h : (k + 1) % 4 = 0 <;>
    simp [h, POMODOROS_BEFORE_LONG_BREAK]

theorem expire_break_state (j : Nat) :
    expire (break_state j) = work_state j := by
  have hpos : 0 < (break_state j).remaining_time := by
    unfold break_state
    split <;>
      simp [initial_state, DEFAULT_LONG_BREAK_MINUTES,
        DEFAULT_SHORT_BREAK_MINUTES]
  rw [expire_eq_switch_mode (break_state j) hpos]
  unfold switch_mode break_state work_state initial_state
  by_cases h : j % 4 = 0 <;> simp [h]

theorem expire_iter_even (k : Nat) :
    expire^[2 * k] initial_state = work_state k := by
  induction k with
  | zero =>
    rw [Nat.mul_zero, Function.iterate_zero_apply]
    rfl
  | succ k ih =>
    have h2 : 2 * (k + 1) = 2 * k + 1 + 1 := by ring
    rw [h2, Function.iterate_succ_apply', Function.iterate_succ_apply', ih,
      expire_work_state, expire_break_state]

theorem expire_iter_odd (k : Nat) :
    expire^[2 * k + 1] initial_state = break_state (k + 1) := by
  rw [Function.iterate_succ_apply', expire_iter_even, expire_work_state]

theorem inv_initial : Inv initial_state := by
  unfold Inv initial_state DEFAULT_WORK_MINUTES DEFAULT_SHORT_BREAK_MINUTES
    DEFAULT_LONG_BREAK_MINUTES
  norm_num

theorem inv_switch_mode (st : EngineState) (hw : 0 < st.work_duration)
    (hs : 0 < st.short_break_duration) (hl : 0 < st.long_break_duration) :
    Inv (switch_mode st) := by
  obtain ⟨hrem, hrun, hcfg⟩ := switch_mode_remaining_and_config st
  rw [config_eq_iff] at hcfg
  obtain ⟨hcw, hcs, hcl⟩ := hcfg
  refine ⟨?_, fun _ => hrun, ?_, ?_, ?_⟩
  · rcases hrem with h | h | h <;> rw [h] <;> omega
  · omega
  · omega
  · omega

theorem inv_reset_current_timer (st : EngineState) (h : Inv st) :
    Inv (reset_current_timer st) := by
  obtain ⟨-, -, hw, hs, hl⟩ := h
  refine ⟨?_, fun _ => rfl, hw, hs, hl⟩
  show (0 : Int) ≤ (match st.current_mode with
    | Mode.work => st.work_duration
    | Mode.shortBreak => st.short_break_duration
    | Mode.longBreak => st.long_break_duration)
  cases st.current_mode
  · exact le_of_lt hw
  · exact le_of_lt hs
  · exact le_of_lt hl

theorem inv_step (st st' : EngineState) (h : Inv st) (hstep : Step st st') :
    Inv st' := by
  obtain ⟨h0, hz, hw, hs, hl⟩ := h
  cases hstep with
  | start_op =>
    unfold start_timer
    split
    · rename_i hg
      exact ⟨h0, fun hc => absurd (show st.remaining_time = 0 from hc)
        (by omega), hw, hs, hl⟩
    · exact ⟨h0, hz, hw, hs, hl⟩
  | pause_op =>
    exact ⟨h0, fun _ => rfl, hw, hs, hl⟩
  | reset_phase_op =>
    exact inv_reset_current_timer st ⟨h0, hz, hw, hs, hl⟩
  | reset_cycle_op =>
    exact ⟨le_of_lt hw, fun _ => rfl, hw, hs, hl⟩
  | skip_op =>
    exact inv_switch_mode st hw hs hl
  | reconfigure_op st' w s l happ =>
    unfold apply_settings at happ
    split at happ
    · exact absurd happ (by simp)
    · rename_i hok
      injection happ with h2
      rw [← h2]
      exact inv_reset_current_timer _ ⟨h0, hz,
        by show (0 : Int) < w * 60; omega,
        by show (0 : Int) < s * 60; omega,
        by show (0 : Int) < l * 60; omega⟩
  | tick_op hrun =>
    unfold tick
    split
    · rename_i hg
      split
      · exact inv_switch_mode _ hw hs hl
      · rename_i hr
        refine ⟨?_, ?_, hw, hs, hl⟩
        · show 0 ≤ st.remaining_time - 1
          omega
        · intro hc
          exact absurd (show st.remaining_time - 1 = 0 from hc) (by omega)
    · exact ⟨h0, hz, hw, hs, hl⟩

theorem reachable_inv (st : EngineState) (h : Reachable st) : Inv st := by
  induction h with
  | init => exact inv_initial
  | step st st' _ hstep ih => exact inv_step st st' ih hstep

/-! ### Claim theorems -/

/-- C1: `switch_mode` obeys the transition rule — from Work it increments
the pomodoro count and goes to Long Break with the long-break duration
exactly when the incremented count is divisible by 4, else to Short
Break with the short-break duration; from a break it returns to Work
with the work duration; it always stops the timer.  Consequently, under
repeated natural expiries from the initial state, the break after the
`(k+1)`-th Work completion is a Long Break exactly when `k + 1` is a
multiple of 4. -/
theorem switch_mode_transition_rule :
    (∀ st : EngineState,
      (st.current_mode = Mode.work →
        (switch_mode st).pomodoros_completed = st.pomodoros_completed + 1 ∧
        (((st.pomodoros_completed + 1) % 4 = 0 →
            (switch_mode st).current_mode = Mode.longBreak ∧
            (switch_mode st).remaining_time = st.long_break_duration) ∧
          ((st.pomodoros_completed + 1) % 4 ≠ 0 →
            (switch_mode st).current_mode = Mode.shortBreak ∧
            (switch_mode st).remaining_time = st.short_break_duration))) ∧
      (st.current_mode ≠ Mode.work →
        (switch_mode st).current_mode = Mode.work ∧
        (switch_mode st).remaining_time = st.work_duration ∧
        (switch_mode st).pomodoros_completed = st.pomodoros_completed) ∧
      (switch_mode st).timer_running = false) ∧
    (∀ k : Nat,
      (expire^[2 * k + 1] initial_state).pomodoros_completed = k + 1 ∧
      (expire^[2 * k + 1] initial_state).current_mode =
        (if (k + 1) % 4 = 0 then Mode.longBreak else Mode.shortBreak)) := by
  constructor
  · intro st
    refine ⟨fun hw => ?_, fun hw => ?_, ?_⟩
    · unfold switch_mode POMODOROS_BEFORE_LONG_BREAK
      rw [if_pos hw]
      by_cases h : (st.pomodoros_completed + 1) % 4 = 0 <;> simp [h]
    · unfold switch_mode
      rw [if_neg hw]
      simp
    · exact (switch_mode_remaining_and_config st).2.1
  · intro k
    rw [expire_iter_odd]
    unfold break_state
    by_cases h : (k + 1) % 4 = 0 <;> simp [h]

/-- C2: Scenario A — from the initial default state, Start followed by
1500 ticks ends in Short Break with 300 seconds remaining, one completed
pomodoro and the timer stopped; the 1499th tick still shows a running
Work phase at 1 second, so the switch happens inside the 1500th tick
itself. -/
theorem scenario_a_start_then_1500_ticks :
    tick^[1500] (start_timer initial_state) =
      { current_mode := Mode.shortBreak
        remaining_time := 300
        timer_running := false
        pomodoros_completed := 1
        work_duration := 1500
        short_break_duration := 300
        long_break_duration := 900 } ∧
    tick^[1499] (start_timer initial_state) =
      { current_mode := Mode.work
        remaining_time := 1
        timer_running := true
        pomodoros_completed := 0
        work_duration := 1500
        short_break_duration := 300
        long_break_duration := 900 } := by
  have hs : start_timer initial_state =
      { initial_state with timer_running := true } := by
    unfold start_timer
    rw [if_pos]
    show (0 : Int) < 25 * 60
    norm_num
  constructor
  · rw [hs, show (1500 : Nat) = 1499 + 1 from rfl,
      ticks_to_switch 1499 _ rfl
        (by show (25 : Int) * 60 = (1499 : Nat) + 1; norm_num)]
    decide
  · rw [hs, ticks_partial 1499 _ rfl
      (by show ((1499 : Nat) : Int) < 25 * 60; norm_num)]
    decide

/-- C3: the settings-apply operation fails with `InvalidConfiguration`
exactly when some requested duration is non-positive, leaving the state
untouched (the error branch returns no new state), and on success it
stores the three durations and behaves as `reset_current_timer`. -/
theorem apply_settings_validates_and_resets :
    ∀ (w s l : Int) (st : EngineState),
      ((apply_settings w s l st =
          Except.error ConfigError.invalidConfiguration) ↔
        (w ≤ 0 ∨ s ≤ 0 ∨ l ≤ 0)) ∧
      (0 < w → 0 < s → 0 < l →
        apply_settings w s l st =
          Except.ok (reset_current_timer
            { st with
              work_duration := w * 60
              short_break_duration := s * 60
              long_break_duration := l * 60 })) := by
  intro w s l st
  unfold apply_settings
  by_cases h : w < 1 ∨ s < 1 ∨ l < 1
  · rw [if_pos h]
    refine ⟨⟨fun _ => by omega, fun _ => rfl⟩, ?_⟩
    intro hw hs hl
    exfalso
    omega
  · rw [if_neg h]
    refine ⟨⟨fun hc => absurd hc (by simp), fun hc => by exfalso; omega⟩,
      fun _ _ _ => rfl⟩

/-- C4: in every state reachable from the initial state by engine
operations (ticks only while running), the remaining time is
non-negative and the timer is stopped whenever it is zero. -/
theorem reachable_nonneg_and_stopped_at_zero :
    ∀ st : EngineState, Reachable st →
      0 ≤ st.remaining_time ∧
      (st.remaining_time = 0 → st.timer_running = false) := by
  intro st h
  obtain ⟨h0, hz, -⟩ := reachable_inv st h
  exact ⟨h0, hz⟩

/-- C4 witness: the invariant instantiated at the initial state. -/
theorem reachable_nonneg_witness :
    0 ≤ initial_state.remaining_time ∧
      (initial_state.remaining_time = 0 → initial_state.timer_running = false) :=
  reachable_nonneg_and_stopped_at_zero initial_state Reachable.init

/-- C5 evaluation: at 1500 seconds the source's formatter prints
`0:25:00` — the hour field is shown even when it is zero, contradicting
the spec's `25:00` and the function's own docstring. -/
theorem format_time_shows_zero_hours :
    format_time 1500 = "0:25:00" ∧ format_time 3661 = "1:01:01" := by
  constructor <;> rfl

/-- C6: skipping a phase with time remaining lands on the same mode,
remaining time and pomodoro count as the natural-expiry path where a
tick takes the running timer from 1 second to 0 and switches. -/
theorem skip_equals_natural_expiry :
    ∀ st : EngineState, 0 < st.remaining_time →
      (switch_mode st).current_mode =
        (tick { st with remaining_time := 1, timer_running := true }).current_mode ∧
      (switch_mode st).remaining_time =
        (tick { st with remaining_time := 1, timer_running := true }).remaining_time ∧
      (switch_mode st).pomodoros_completed =
        (tick { st with remaining_time := 1, timer_running := true }).pomodoros_completed := by
  intro st _
  have h : tick { st with remaining_time := 1, timer_running := true } =
      switch_mode st := by
    rw [tick_of_eq_one _ rfl rfl]
    exact switch_mode_irrel st 0 true
  rw [h]
  exact ⟨rfl, rfl, rfl⟩

/-- C6 witness: skip equivalence at the initial state. -/
theorem skip_equals_natural_expiry_witness :
    (switch_mode initial_state).current_mode =
      (tick { initial_state with
        remaining_time := 1, timer_running := true }).current_mode ∧
    (switch_mode initial_state).remaining_time =
      (tick { initial_state with
        remaining_time := 1, timer_running := true }).remaining_time ∧
    (switch_mode initial_state).pomodoros_completed =
      (tick { initial_state with
        remaining_time := 1, timer_running := true }).pomodoros_completed :=
  skip_equals_natural_expiry initial_state
    (by norm_num [initial_state, DEFAULT_WORK_MINUTES])

/-- C7: `reset_current_timer` stops the timer and reloads the current
mode's configured duration, leaving the mode, the pomodoro count and the
three configured durations unchanged. -/
theorem reset_current_timer_frame :
    ∀ st : EngineState,
      (reset_current_timer st).timer_running = false ∧
      (reset_current_timer st).remaining_time =
        (match st.current_mode with
          | Mode.work => st.work_duration
          | Mode.shortBreak => st.short_break_duration
          | Mode.longBreak => st.long_break_duration) ∧
      (reset_current_timer st).current_mode = st.current_mode ∧
      (reset_current_timer st).pomodoros_completed = st.pomodoros_completed ∧
      (reset_current_timer st).config = st.config := by
  intro st
  exact ⟨rfl, rfl, rfl, rfl, rfl⟩

/-- C8: `pause_timer` is idempotent and total — applying it twice equals
applying it once, and in every state it just stops the timer. -/
theorem pause_timer_idempotent :
    ∀ st : EngineState,
      pause_timer (pause_timer st) = pause_timer st ∧
      (pause_timer st).timer_running = false := by
  intro st
  exact ⟨rfl, rfl⟩

/-- C9: the pomodoro count never decreases except through `reset_cycle`:
start, pause, reset-phase and a successful reconfigure leave it
untouched, `switch_mode` and `tick` can only grow it, a break-to-Work
switch leaves it unchanged, and `reset_cycle` sets it to zero. -/
theorem pomodoros_completed_monotone :
    ∀ st : EngineState,
      (start_timer st).pomodoros_completed = st.pomodoros_completed ∧
      (pause_timer st).pomodoros_completed = st.pomodoros_completed ∧
      (reset_current_timer st).pomodoros_completed = st.pomodoros_completed ∧
      (∀ w s l st', apply_settings w s l st = Except.ok st' →
        st'.pomodoros_completed = st.pomodoros_completed) ∧
      st.pomodoros_completed ≤ (switch_mode st).pomodoros_completed ∧
      st.pomodoros_completed ≤ (tick st).pomodoros_completed ∧
      (st.current_mode ≠ Mode.work →
        (switch_mode st).pomodoros_completed = st.pomodoros_completed) ∧
      (reset_cycle st).pomodoros_completed = 0 := by
  intro st
  refine ⟨?_, rfl, rfl, ?_, switch_mode_completed_le st, ?_, ?_, rfl⟩
  · unfold start_timer
    split <;> rfl
  · intro w s l st' happ
    unfold apply_settings at happ
    split at happ
    · exact absurd happ (by simp)
    · injection happ with h2
      rw [← h2]
      rfl
  · unfold tick
    split
    · split
      · exact switch_mode_completed_le _
      · exact le_refl _
    · exact le_refl _
  · intro hm
    have h1 : switch_mode st =
        { st with current_mode := Mode.work
                  remaining_time := st.work_duration
                  timer_running := false } := by
      unfold switch_mode
      rw [if_neg hm]
    rw [h1]

/-- C10: none of the engine's other operations touches the configured
durations — only the settings-apply handler writes them. -/
theorem config_unchanged_by_engine_ops :
    ∀ st : EngineState,
      (start_timer st).config = st.config ∧
      (pause_timer st).config = st.config ∧
      (reset_current_timer st).config = st.config ∧
      (reset_cycle st).config = st.config ∧
      (switch_mode st).config = st.config ∧
      (tick st).config = st.config := by
  intro st
  refine ⟨?_, rfl, rfl, rfl, (switch_mode_remaining_and_config st).2.2, ?_⟩
  · unfold start_timer
    split <;> rfl
  · unfold tick
    split
    · split
      · exact (switch_mode_remaining_and_config _).2.2
      · rfl
    · rfl

end Pomodoro
